import Mathlib

/-!
Shallow embedding of the attribute-validation engine of City2TABULA
(src/validation/modules/{validators,metrics,plots,utils}.py).

DataFrames are embedded as lists of records; numeric cells are rationals;
a numpy NaN cell (used by the code for an undefined percent error) is
embedded as `none : Option ℚ`.  Each definition mirrors one Python
function, keeping its name and branch order.
-/

namespace City2TABULA

/-- Nonnegative remainder `a % b` on rationals, matching numpy's `%` for a
positive divisor (result carries the sign of the divisor). -/
def qmod (a b : ℚ) : ℚ := a - b * ⌊a / b⌋

/-- `plots.compute_errors`, per row: given the attribute name and the
(calculated, thematic) pair, return the `difference` and the optional
`percent_error` exactly as the vectorized pandas code assigns them
(NaN ↦ `none`).  Branch order follows the source. -/
def compute_errors (attr : String) (calcv thematic : ℚ) : ℚ × Option ℚ :=
  let eps : ℚ := 1 / 1000000
  if attr = "min_height" ∨ attr = "max_height" ∨ attr = "height" then
    (calcv - thematic, some ((calcv - thematic) / (thematic + eps) * 100))
  else if attr = "surface_area" ∨ attr = "area" ∨ attr = "footprint_area" then
    (calcv - thematic, some ((calcv - thematic) / (thematic + eps) * 100))
  else if attr = "tilt" then
    (calcv - thematic, none)
  else if attr = "azimuth" then
    let raw := qmod |calcv - thematic| 360
    (if raw > 180 then 360 - raw else raw, none)
  else
    (calcv - thematic, none)

/-- One row of the normalized thematic (reference) table:
columns `feature_id`, `attribute_name`, `thematic_value`. -/
structure ThematicRow where
  feature_id : Int
  attribute_name : String
  thematic_value : ℚ
deriving DecidableEq

/-- One row of the calculated surface table.  `attrs` holds the numeric
computed columns; pandas guarantees every column of the table is present
in every row, so lookups default to 0 only outside that invariant. -/
structure SurfaceRow where
  surface_feature_id : Int
  building_feature_id : Int
  classname : String
  attrs : List (String × ℚ)
deriving DecidableEq

/-- Cell lookup in a row, first matching column wins (pandas columns are
unique, and every column of a table is present in each row). -/
def getValue : List (String × ℚ) → String → ℚ
  | [], _ => 0
  | (k, v) :: rest, c => if k = c then v else getValue rest c

/-- Cell access `row[column]` on a surface row. -/
def SurfaceRow.value (r : SurfaceRow) (c : String) : ℚ := getValue r.attrs c

/-- The calculated surface DataFrame: its column set plus its rows. -/
structure SurfaceTable where
  columns : List String
  rows : List SurfaceRow
deriving DecidableEq

/-- One validation result row of `validate_surface_attributes`. -/
structure SurfaceRecord where
  surface_feature_id : Int
  building_feature_id : Int
  classname : String
  attribute_name : String
  calculated_value : ℚ
  thematic_value : ℚ
  difference : ℚ
  percent_error : Option ℚ
deriving DecidableEq

/-- `np.where(thematic != 0, difference / thematic * 100, np.nan)`,
per row (NaN ↦ `none`), as used by both validators. -/
def percentError (difference thematic : ℚ) : Option ℚ :=
  if thematic ≠ 0 then some (difference / thematic * 100) else none

/-- Build one surface validation record from a joined (calculated, thematic)
row pair, for computed column `cc` (lines 195-204 of validators.py). -/
def mkSurfaceRecord (cc : String) (c : SurfaceRow) (t : ThematicRow) : SurfaceRecord :=
  { surface_feature_id := c.surface_feature_id
    building_feature_id := c.building_feature_id
    classname := c.classname
    attribute_name := cc
    calculated_value := c.value cc
    thematic_value := t.thematic_value
    difference := c.value cc - t.thematic_value
    percent_error := percentError (c.value cc - t.thematic_value) t.thematic_value }

/-- The pandas inner merge on `surface_feature_id = feature_id`:
for each left row, all matching right rows, in order. -/
def innerJoinSurface (filtered : List SurfaceRow) (attrThematic : List ThematicRow) :
    List (SurfaceRow × ThematicRow) :=
  filtered.flatMap (fun c =>
    (attrThematic.filter (fun t => decide (t.feature_id = c.surface_feature_id))).map
      (fun t => (c, t)))

/-- The body of the per-attribute loop of `validate_surface_attributes`
(lines 156-212): skip on empty source label, missing column, or no
thematic rows; otherwise inner-join, apply the azimuth sentinel filter,
and emit one record per joined row. -/
def surfaceRecordsFor (columns : List String) (filtered : List SurfaceRow)
    (thematic : List ThematicRow) (cc sl : String) : List SurfaceRecord :=
  if sl = "" then []
  else if cc ∉ columns then []
  else if thematic.filter (fun t => decide (t.attribute_name = cc)) = [] then []
  else
    (if cc = "azimuth"
      then (innerJoinSurface filtered
          (thematic.filter (fun t => decide (t.attribute_name = cc)))).filter
        (fun p => decide (p.1.value cc ≠ -1 ∧ p.2.thematic_value ≠ -1))
      else innerJoinSurface filtered
        (thematic.filter (fun t => decide (t.attribute_name = cc)))).map
      (fun p => mkSurfaceRecord cc p.1 p.2)

/-- `validators.validate_surface_attributes`: guard on empty inputs, filter
the calculated rows by `classname == surface_type`, then concatenate the
per-attribute results over the mapping. -/
def validate_surface_attributes (tbl : SurfaceTable) (thematic : List ThematicRow)
    (mapping : List (String × String)) (surface_type : String) : List SurfaceRecord :=
  if tbl.rows = [] ∨ thematic = [] then []
  else if tbl.rows.filter (fun r => decide (r.classname = surface_type)) = [] then []
  else (mapping.map (fun p =>
    surfaceRecordsFor tbl.columns (tbl.rows.filter (fun r => decide (r.classname = surface_type)))
      thematic p.1 p.2)).flatten

/-- One row of the calculated building table. -/
structure BuildingRow where
  building_feature_id : Int
  attrs : List (String × ℚ)
deriving DecidableEq

/-- Cell access `row[column]` on a building row. -/
def BuildingRow.value (r : BuildingRow) (c : String) : ℚ := getValue r.attrs c

/-- The calculated building DataFrame: its column set plus its rows. -/
structure BuildingTable where
  columns : List String
  rows : List BuildingRow
deriving DecidableEq

/-- One validation result row of `validate_building_attributes`. -/
structure BuildingRecord where
  building_feature_id : Int
  attribute_name : String
  calculated_value : ℚ
  thematic_value : ℚ
  difference : ℚ
  percent_error : Option ℚ
deriving DecidableEq

/-- Build one building validation record from a joined row pair
(lines 74-84 of validators.py). -/
def mkBuildingRecord (cc : String) (c : BuildingRow) (t : ThematicRow) : BuildingRecord :=
  { building_feature_id := c.building_feature_id
    attribute_name := cc
    calculated_value := c.value cc
    thematic_value := t.thematic_value
    difference := c.value cc - t.thematic_value
    percent_error := percentError (c.value cc - t.thematic_value) t.thematic_value }

/-- The body of the per-attribute loop of `validate_building_attributes`
(lines 52-92).  Unlike the surface variant, the code has no guard for a
missing computed column: the column selection
`building_calc_df[['building_feature_id', computed_column]]` raises a
KeyError, reached only after the thematic-emptiness check; this is
embedded as `Except.error`. -/
def buildingRecordsFor (columns : List String) (calcRows : List BuildingRow)
    (thematic : List ThematicRow) (cc sl : String) : Except String (List BuildingRecord) :=
  if sl = "" then .ok []
  else if thematic.filter (fun t => decide (t.attribute_name = cc)) = [] then .ok []
  else if cc ∉ columns then .error ("KeyError: " ++ cc)
  else .ok ((calcRows.flatMap (fun c =>
    ((thematic.filter (fun t => decide (t.attribute_name = cc))).filter
        (fun t => decide (t.feature_id = c.building_feature_id))).map
      (fun t => (c, t)))).map (fun p => mkBuildingRecord cc p.1 p.2))

/-- The list of records `buildingRecordsFor` returns when the mapped column
is present (the payload of its `Except.ok`); a proof-side name for the same
per-attribute loop body. -/
def buildingChunk (calcRows : List BuildingRow)
    (thematic : List ThematicRow) (cc sl : String) : List BuildingRecord :=
  if sl = "" then []
  else if thematic.filter (fun t => decide (t.attribute_name = cc)) = [] then []
  else ((calcRows.flatMap (fun c =>
    ((thematic.filter (fun t => decide (t.attribute_name = cc))).filter
        (fun t => decide (t.feature_id = c.building_feature_id))).map
      (fun t => (c, t)))).map (fun p => mkBuildingRecord cc p.1 p.2))

/-- Sequential execution of the per-attribute loop: the first raised
KeyError aborts the call. -/
def validateBuildingAux (columns : List String) (calcRows : List BuildingRow)
    (thematic : List ThematicRow) : List (String × String) → Except String (List BuildingRecord)
  | [] => .ok []
  | p :: rest =>
    match buildingRecordsFor columns calcRows thematic p.1 p.2 with
    | .error e => .error e
    | .ok recs =>
      match validateBuildingAux columns calcRows thematic rest with
      | .error e => .error e
      | .ok more => .ok (recs ++ more)

/-- `validators.validate_building_attributes`: guard on empty inputs, then
run the per-attribute loop over the mapping. -/
def validate_building_attributes (tbl : BuildingTable) (thematic : List ThematicRow)
    (mapping : List (String × String)) : Except String (List BuildingRecord) :=
  if tbl.rows = [] ∨ thematic = [] then .ok []
  else validateBuildingAux tbl.columns tbl.rows thematic mapping

/-- The tolerance-key normalization inside `metrics.check_tolerance`
(lines 147-151). -/
def tolerance_key (attr : String) : String :=
  if attr = "surface_area" then "surface_area"
  else if attr = "min_height" ∨ attr = "max_height" then "height"
  else attr

/-- The row function `is_within_tolerance` of `metrics.check_tolerance`
(lines 143-160).  A missing threshold returns `none`.  For the percent
kind with a NaN `percent_error` cell, Python evaluates
`abs(nan) <= threshold` to `False`, embedded as `some false`. -/
def is_within_tolerance (tolerances : List (String × ℚ)) (tolerance_type : String)
    (attr : String) (difference : ℚ) (percent_error : Option ℚ) : Option Bool :=
  match tolerances.lookup (tolerance_key attr) with
  | none => none
  | some threshold =>
    if tolerance_type = "abs" then some (decide (|difference| ≤ threshold))
    else some (match percent_error with
      | none => false
      | some p => decide (|p| ≤ threshold))

/-- `metrics.check_tolerance`: with an empty input or an empty tolerance
configuration the DataFrame is returned unchanged, without a
`within_tolerance` column (`Except.error`); otherwise each record is
paired with its verdict (`Except.ok`). -/
def check_tolerance (validation_df : List SurfaceRecord) (tolerances : List (String × ℚ))
    (tolerance_type : String) : Except (List SurfaceRecord) (List (SurfaceRecord × Option Bool)) :=
  if validation_df = [] then .error validation_df
  else if tolerances = [] then .error validation_df
  else .ok (validation_df.map (fun r =>
    (r, is_within_tolerance tolerances tolerance_type r.attribute_name r.difference r.percent_error)))

/-- `mean(thematic_value)` of a record group. -/
def refMean (l : List SurfaceRecord) : ℚ := (l.map (·.thematic_value)).sum / l.length

/-- `ss_res = Σ (calculated - thematic)^2` of a record group. -/
def ssRes (l : List SurfaceRecord) : ℚ :=
  (l.map (fun r => (r.calculated_value - r.thematic_value) ^ 2)).sum

/-- `ss_tot = Σ (thematic - mean(thematic))^2` of a record group. -/
def ssTot (l : List SurfaceRecord) : ℚ :=
  (l.map (fun r => (r.thematic_value - refMean l) ^ 2)).sum

/-- The inner `r2_score` of `metrics.calculate_r_squared` (lines 96-103). -/
def r2_score (l : List SurfaceRecord) : Option ℚ :=
  if l.length < 2 then none
  else if ssTot l = 0 then none
  else some (1 - ssRes l / ssTot l)

/-- `metrics.calculate_r_squared` with an attribute name given
(lines 93-109): empty input or empty group yields `None`. -/
def calculate_r_squared (validation_df : List SurfaceRecord) (attribute_name : String) :
    Option ℚ :=
  if validation_df = [] then none
  else
    let g := validation_df.filter (fun r => decide (r.attribute_name = attribute_name))
    if g = [] then none else r2_score g

/-- The flag predicate of `validators.export_problematic_surfaces`
(lines 296-299): `abs(percent_error) > threshold` is `False` on a NaN
cell, so a `none` percent error is judged by the difference clause only. -/
def exportFlag (error_threshold : ℚ) (r : SurfaceRecord) : Bool :=
  (match r.percent_error with
    | some p => decide (|p| > error_threshold)
    | none => false)
  || decide (|r.difference| > 170)

/-- `validators.export_problematic_surfaces` (lines 291-318): the returned
pair is the flagged subset plus whether `to_csv` is invoked; the CSV write
is reached only when the flagged subset is nonempty. -/
def export_problematic_surfaces (validation_df : List SurfaceRecord) (error_threshold : ℚ) :
    List SurfaceRecord × Bool :=
  if validation_df = [] then ([], false)
  else
    let problematic := validation_df.filter (exportFlag error_threshold)
    if problematic = [] then ([], false)
    else (problematic, true)

/-- One raw row of the CityDB property query result:
`feature_id`, `source_label` (property name), numeric `thematic_value`. -/
structure RawPropertyRow where
  feature_id : Int
  source_label : String
  thematic_value : ℚ
deriving DecidableEq

/-- The row-expansion step of `utils.load_thematic_building_data`
(lines 140-161): `label_to_columns` maps each source label to all computed
columns using it, in mapping order, and every raw row is fanned out into
one normalized row per such column. -/
def load_thematic_building_expand (thematic : List RawPropertyRow)
    (mapping : List (String × String)) : List ThematicRow :=
  thematic.flatMap (fun row =>
    (mapping.filter (fun p => decide (p.2 = row.source_label))).map
      (fun p => ⟨row.feature_id, p.1, row.thematic_value⟩))

/-- A normalized surface thematic row as produced by
`utils.load_thematic_surface_data`; an unmapped source label leaves a NaN
`attribute_name` (`none`). -/
structure MappedThematicRow where
  feature_id : Int
  attribute_name : Option String
  thematic_value : ℚ
deriving DecidableEq

/-- `label_to_column = {v: k for k, v in attribute_mapping.items()}` of
`utils.load_thematic_surface_data` (line 239): a dict comprehension keeps,
for each label, only the last computed column mapped to it. -/
def lastLabelMatch (mapping : List (String × String)) (label : String) : Option String :=
  ((mapping.filter (fun p => decide (p.2 = label))).map Prod.fst).getLast?

/-- The mapping step of `utils.load_thematic_surface_data` (lines 238-245):
each raw row is kept once, with `attribute_name` looked up via the
label-to-column dict (no fan-out). -/
def load_thematic_surface_map (thematic : List RawPropertyRow)
    (mapping : List (String × String)) : List MappedThematicRow :=
  thematic.map (fun row =>
    ⟨row.feature_id, lastLabelMatch mapping row.source_label, row.thematic_value⟩)

/-! ### Helper lemmas -/

/-- For a positive divisor, `qmod` is the divisor times the fractional part
of the quotient. -/
lemma qmod_eq_mul_fract (a b : ℚ) (hb : b ≠ 0) : qmod a b = b * Int.fract (a / b) := by
  unfold qmod
  rw [Int.fract]
  field_simp

lemma qmod_nonneg (a b : ℚ) (hb : 0 < b) : 0 ≤ qmod a b := by
  rw [qmod_eq_mul_fract a b (ne_of_gt hb)]
  exact mul_nonneg (le_of_lt hb) (Int.fract_nonneg _)

lemma qmod_lt (a b : ℚ) (hb : 0 < b) : qmod a b < b := by
  rw [qmod_eq_mul_fract a b (ne_of_gt hb)]
  calc b * Int.fract (a / b) < b * 1 := by
        exact mul_lt_mul_of_pos_left (Int.fract_lt_one _) hb
    _ = b := mul_one b

end City2TABULA

namespace City2TABULA

/-- C7: `calculate_r_squared` returns `1 - SS_res/SS_tot` for a group of at
least 2 records with nonzero `SS_tot`, and `none` for a smaller group or a
zero-variance reference series; it never divides by zero. -/
theorem C7_r_squared (validation_df : List SurfaceRecord) (a : String)
    (g : List SurfaceRecord) (hg : g = validation_df.filter (fun r => decide (r.attribute_name = a))) :
    (2 ≤ g.length → ssTot g ≠ 0 →
      calculate_r_squared validation_df a = some (1 - ssRes g / ssTot g)) ∧
    (g.length < 2 ∨ ssTot g = 0 → calculate_r_squared validation_df a = none) := by
  unfold calculate_r_squared
  by_cases hdf : validation_df = []
  · subst hdf
    simp only [List.filter_nil] at hg
    subst hg
    refine ⟨fun h2 _ => absurd h2 (by simp), fun _ => by simp⟩
  · simp only [hdf, if_neg, if_false]
    rw [← hg]
    by_cases hgnil : g = []
    · subst hgnil
      refine ⟨fun h2 _ => absurd h2 (by simp), fun _ => by simp⟩
    · simp only [hgnil, if_neg, if_false]
      unfold r2_score
      constructor
      · intro h2 htot
        rw [if_neg (by omega), if_neg htot]
      · intro h
        rcases h with h | h
        · rw [if_pos h]
        · by_cases hlen : g.length < 2
          · rw [if_pos hlen]
          · rw [if_neg hlen, if_pos h]

/-- Witness for C7 on a concrete two-record group: mean reference 2,
`SS_res = 5`, `SS_tot = 2`, so `r² = 1 - 5/2 = -3/2`; and a degenerate
constant-reference group yields `none`. -/
theorem C7_r_squared_witness :
    calculate_r_squared
      [⟨1, 10, "RoofSurface", "area", 3, 1, 2, some 200⟩,
       ⟨2, 10, "RoofSurface", "area", 4, 3, 1, some (100 / 3)⟩] "area" = some (-(3 / 2)) ∧
    calculate_r_squared
      [⟨1, 10, "RoofSurface", "area", 3, 1, 2, some 200⟩,
       ⟨2, 10, "RoofSurface", "area", 4, 1, 3, some 300⟩] "area" = none := by
  constructor
  · have h := (C7_r_squared
      [⟨1, 10, "RoofSurface", "area", 3, 1, 2, some 200⟩,
       ⟨2, 10, "RoofSurface", "area", 4, 3, 1, some (100 / 3)⟩] "area" _ rfl).1
      (by decide) (by norm_num [ssTot, refMean])
    rw [h]
    norm_num [ssRes, ssTot, refMean]
  · exact (C7_r_squared
      [⟨1, 10, "RoofSurface", "area", 3, 1, 2, some 200⟩,
       ⟨2, 10, "RoofSurface", "area", 4, 1, 3, some 300⟩] "area" _ rfl).2
      (Or.inr (by norm_num [ssTot, refMean]))

/-- C10 (frame effect): when no record is flagged,
`export_problematic_surfaces` returns an empty record set and the CSV
write is not performed. -/
theorem C10_export_no_write (validation_df : List SurfaceRecord) (error_threshold : ℚ)
    (h : validation_df.filter (exportFlag error_threshold) = []) :
    export_problematic_surfaces validation_df error_threshold = ([], false) := by
  unfold export_problematic_surfaces
  by_cases hdf : validation_df = []
  · rw [if_pos hdf]
  · rw [if_neg hdf]
    simp only [h, if_pos]

/-- Witness for C10: one unflagged record (percent error 5 ≤ 10,
difference 10 ≤ 170) yields no export and no write. -/
theorem C10_export_no_write_witness :
    export_problematic_surfaces
      [⟨1, 10, "RoofSurface", "surface_area", 110, 100, 10, some 5⟩] 10 = ([], false) :=
  C10_export_no_write [⟨1, 10, "RoofSurface", "surface_area", 110, 100, 10, some 5⟩] 10
    (by decide)

/-- C5 counterexample: with a percent tolerance of 5 configured for `tilt`,
a record whose `percent_error` is NaN (`none`) gets
`within_tolerance = false` — `abs(nan) <= threshold` evaluates to `False`
in Python — not `null` as the claim states. -/
theorem C5_counterexample :
    is_within_tolerance [("tilt", 5)] "percent" "tilt" 3 none = some false ∧
    is_within_tolerance [("tilt", 5)] "percent" "tilt" 3 none ≠ none := by
  constructor
  · rfl
  · intro h
    simp [is_within_tolerance, tolerance_key] at h

/-- C5 amended: the tolerance key is normalized (`min_height`/`max_height`
share the `height` key, `surface_area` keeps its own, all others use their
name); a missing threshold yields `none`, never `false`; the absolute kind
yields `|difference| ≤ threshold` (inclusive); the percent kind yields
`|percent_error| ≤ threshold`, and `false` — not `null` — when
`percent_error` is NaN; and `check_tolerance` assigns exactly this verdict
to every record. -/
theorem C5_check_tolerance :
    (tolerance_key "min_height" = "height" ∧ tolerance_key "max_height" = "height" ∧
      tolerance_key "surface_area" = "surface_area" ∧
      (∀ a : String, a ≠ "min_height" → a ≠ "max_height" → tolerance_key a = a)) ∧
    (∀ (tolerances : List (String × ℚ)) (ttype a : String) (d : ℚ) (pe : Option ℚ),
      tolerances.lookup (tolerance_key a) = none →
      is_within_tolerance tolerances ttype a d pe = none) ∧
    (∀ (tolerances : List (String × ℚ)) (a : String) (d th : ℚ) (pe : Option ℚ),
      tolerances.lookup (tolerance_key a) = some th →
      is_within_tolerance tolerances "abs" a d pe = some (decide (|d| ≤ th))) ∧
    (∀ (tolerances : List (String × ℚ)) (a : String) (d p th : ℚ),
      tolerances.lookup (tolerance_key a) = some th →
      is_within_tolerance tolerances "percent" a d (some p) = some (decide (|p| ≤ th))) ∧
    (∀ (tolerances : List (String × ℚ)) (a : String) (d th : ℚ),
      tolerances.lookup (tolerance_key a) = some th →
      is_within_tolerance tolerances "percent" a d none = some false) ∧
    (is_within_tolerance [("height", 2)] "abs" "min_height" 2 none = some true) ∧
    (∀ (validation_df : List SurfaceRecord) (tolerances : List (String × ℚ))
       (ttype : String) (l : List (SurfaceRecord × Option Bool)),
      check_tolerance validation_df tolerances ttype = .ok l →
      ∀ (r : SurfaceRecord) (w : Option Bool), (r, w) ∈ l →
        w = is_within_tolerance tolerances ttype r.attribute_name r.difference r.percent_error) := by
  refine ⟨⟨rfl, rfl, rfl, ?_⟩, ?_, ?_, ?_, ?_, by rfl, ?_⟩
  · intro a h1 h2
    unfold tolerance_key
    by_cases hsa : a = "surface_area"
    · rw [if_pos hsa, hsa]
    · rw [if_neg hsa, if_neg (by tauto)]
  · intro tolerances ttype a d pe h
    unfold is_within_tolerance
    rw [h]
  · intro tolerances a d th pe h
    unfold is_within_tolerance
    rw [h]
    simp
  · intro tolerances a d p th h
    unfold is_within_tolerance
    rw [h]
    simp
  · intro tolerances a d th h
    unfold is_within_tolerance
    rw [h]
    simp
  · intro validation_df tolerances ttype l hok r w hmem
    unfold check_tolerance at hok
    by_cases h1 : validation_df = []
    · rw [if_pos h1] at hok
      exact absurd hok (by simp)
    · rw [if_neg h1] at hok
      by_cases h2 : tolerances = []
      · rw [if_pos h2] at hok
        exact absurd hok (by simp)
      · rw [if_neg h2] at hok
        injection hok with hok
        subst hok
        rcases List.mem_map.mp hmem with ⟨r0, _, heq⟩
        have hr : r0 = r := congrArg Prod.fst heq
        subst hr
        exact (congrArg Prod.snd heq).symm

/-- Witness for C5: concrete checks — no `footprint_area` threshold
configured gives `none`; the absolute check at the inclusive boundary under
the normalized `height` key gives `true`; a percent check with a defined
percent error gives its comparison; a NaN percent error gives `false`. -/
theorem C5_check_tolerance_witness :
    is_within_tolerance [("height", 2)] "abs" "footprint_area" 1 none = none ∧
    is_within_tolerance [("height", 2)] "abs" "max_height" 2 none =
      some (decide ((|(2 : ℚ)|) ≤ 2)) ∧
    is_within_tolerance [("surface_area", 10)] "percent" "surface_area" 3 (some 7) =
      some (decide ((|(7 : ℚ)|) ≤ 10)) ∧
    is_within_tolerance [("tilt", 5)] "percent" "tilt" 3 none = some false := by
  refine ⟨?_, ?_, ?_, ?_⟩
  · exact (C5_check_tolerance.2.1) [("height", 2)] "abs" "footprint_area" 1 none (by rfl)
  · exact (C5_check_tolerance.2.2.1) [("height", 2)] "max_height" 2 2 none (by rfl)
  · exact (C5_check_tolerance.2.2.2.1) [("surface_area", 10)] "surface_area" 3 7 10 (by rfl)
  · exact (C5_check_tolerance.2.2.2.2.1) [("tilt", 5)] "tilt" 3 5 (by rfl)

/-- Every record emitted by the per-attribute surface loop is built by
`mkSurfaceRecord` from some joined row pair. -/
lemma mem_surfaceRecordsFor_shape {columns : List String} {filtered : List SurfaceRow}
    {thematic : List ThematicRow} {cc sl : String} {r : SurfaceRecord}
    (h : r ∈ surfaceRecordsFor columns filtered thematic cc sl) :
    ∃ c t, r = mkSurfaceRecord cc c t := by
  unfold surfaceRecordsFor at h
  split at h
  · exact absurd h (List.not_mem_nil r)
  · split at h
    · exact absurd h (List.not_mem_nil r)
    · split at h
      · exact absurd h (List.not_mem_nil r)
      · rcases List.mem_map.mp h with ⟨p, _, hp⟩
        exact ⟨p.1, p.2, hp.symm⟩

/-- Every record emitted by `validate_surface_attributes` is built by
`mkSurfaceRecord` from some joined row pair. -/
lemma mem_validate_surface_shape {tbl : SurfaceTable} {thematic : List ThematicRow}
    {mapping : List (String × String)} {surface_type : String} {r : SurfaceRecord}
    (h : r ∈ validate_surface_attributes tbl thematic mapping surface_type) :
    ∃ cc c t, r = mkSurfaceRecord cc c t := by
  unfold validate_surface_attributes at h
  split at h
  · exact absurd h (List.not_mem_nil r)
  · split at h
    · exact absurd h (List.not_mem_nil r)
    · rcases List.mem_flatten.mp h with ⟨l, hl, hrl⟩
      rcases List.mem_map.mp hl with ⟨p, _, hp⟩
      subst hp
      rcases mem_surfaceRecordsFor_shape hrl with ⟨c, t, hct⟩
      exact ⟨p.1, c, t, hct⟩

/-- Every record in a successful `buildingRecordsFor` payload is built by
`mkBuildingRecord` from some joined row pair. -/
lemma buildingRecordsFor_ok_shape {columns : List String} {calcRows : List BuildingRow}
    {thematic : List ThematicRow} {cc sl : String} {l : List BuildingRecord} {r : BuildingRecord}
    (hok : buildingRecordsFor columns calcRows thematic cc sl = .ok l) (h : r ∈ l) :
    ∃ c t, r = mkBuildingRecord cc c t := by
  unfold buildingRecordsFor at hok
  split at hok
  · injection hok with hok
    subst hok
    exact absurd h (List.not_mem_nil r)
  · split at hok
    · injection hok with hok
      subst hok
      exact absurd h (List.not_mem_nil r)
    · split at hok
      · exact absurd hok (by simp)
      · injection hok with hok
        subst hok
        rcases List.mem_map.mp h with ⟨p, _, hp⟩
        exact ⟨p.1, p.2, hp.symm⟩

/-- Every record in a successful `validateBuildingAux` payload is built by
`mkBuildingRecord` for some mapped attribute. -/
lemma validateBuildingAux_ok_shape {columns : List String} {calcRows : List BuildingRow}
    {thematic : List ThematicRow} :
    ∀ {mapping : List (String × String)} {l : List BuildingRecord} {r : BuildingRecord},
      validateBuildingAux columns calcRows thematic mapping = .ok l → r ∈ l →
      ∃ cc c t, r = mkBuildingRecord cc c t := by
  intro mapping
  induction mapping with
  | nil =>
    intro l r hok h
    injection hok with hok
    subst hok
    exact absurd h (List.not_mem_nil r)
  | cons p rest ih =>
    intro l r hok h
    unfold validateBuildingAux at hok
    cases hb : buildingRecordsFor columns calcRows thematic p.1 p.2 with
    | error e => rw [hb] at hok; exact absurd hok (by simp)
    | ok recs =>
      rw [hb] at hok
      cases ha : validateBuildingAux columns calcRows thematic rest with
      | error e => rw [ha] at hok; exact absurd hok (by simp)
      | ok more =>
        rw [ha] at hok
        injection hok with hok
        subst hok
        rcases List.mem_append.mp h with h1 | h2
        · rcases buildingRecordsFor_ok_shape hb h1 with ⟨c, t, hct⟩
          exact ⟨p.1, c, t, hct⟩
        · exact ih ha h2

/-- Every record in a successful `validate_building_attributes` payload is
built by `mkBuildingRecord` from some joined row pair. -/
lemma mem_validate_building_shape {tbl : BuildingTable} {thematic : List ThematicRow}
    {mapping : List (String × String)} {l : List BuildingRecord} {r : BuildingRecord}
    (hok : validate_building_attributes tbl thematic mapping = .ok l) (h : r ∈ l) :
    ∃ cc c t, r = mkBuildingRecord cc c t := by
  unfold validate_building_attributes at hok
  split at hok
  · injection hok with hok
    subst hok
    exact absurd h (List.not_mem_nil r)
  · exact validateBuildingAux_ok_shape hok h

/-- The records returned by `export_problematic_surfaces` are exactly the
flag-filtered input records. -/
lemma export_mem (validation_df : List SurfaceRecord) (thr : ℚ) (r : SurfaceRecord) :
    r ∈ (export_problematic_surfaces validation_df thr).1 ↔
      r ∈ validation_df.filter (exportFlag thr) := by
  unfold export_problematic_surfaces
  by_cases h1 : validation_df = []
  · subst h1
    simp
  · rw [if_neg h1]
    by_cases h2 : validation_df.filter (exportFlag thr) = []
    · rw [if_pos h2, h2]
    · rw [if_neg h2]

/-- The export flag as a proposition. -/
lemma exportFlag_iff (thr : ℚ) (r : SurfaceRecord) :
    exportFlag thr r = true ↔
      (∃ p, r.percent_error = some p ∧ |p| > thr) ∨ |r.difference| > 170 := by
  unfold exportFlag
  cases hpe : r.percent_error with
  | none => simp
  | some p => simp

/-- C8: the export returns exactly the records with
`|percent_error| > threshold` or `|difference| > 170`; a record with NaN
percent error is judged by the difference clause alone; and the two spec
scenarios (percent 15 vs threshold 10; percent 5 with difference 175) are
both exported. -/
theorem C8_export_threshold :
    (∀ (validation_df : List SurfaceRecord) (thr : ℚ) (r : SurfaceRecord),
      r ∈ (export_problematic_surfaces validation_df thr).1 ↔
        r ∈ validation_df ∧
          ((∃ p, r.percent_error = some p ∧ |p| > thr) ∨ |r.difference| > 170)) ∧
    (∀ (validation_df : List SurfaceRecord) (thr : ℚ) (r : SurfaceRecord),
      r.percent_error = none →
      (r ∈ (export_problematic_surfaces validation_df thr).1 ↔
        r ∈ validation_df ∧ |r.difference| > 170)) ∧
    ((⟨1, 10, "RoofSurface", "surface_area", 115, 100, 15, some 15⟩ : SurfaceRecord) ∈
      (export_problematic_surfaces
        [⟨1, 10, "RoofSurface", "surface_area", 115, 100, 15, some 15⟩] 10).1) ∧
    ((⟨2, 10, "RoofSurface", "azimuth", 180, 5, 175, some 5⟩ : SurfaceRecord) ∈
      (export_problematic_surfaces
        [⟨2, 10, "RoofSurface", "azimuth", 180, 5, 175, some 5⟩] 10).1) := by
  have hmain : ∀ (validation_df : List SurfaceRecord) (thr : ℚ) (r : SurfaceRecord),
      r ∈ (export_problematic_surfaces validation_df thr).1 ↔
        r ∈ validation_df ∧
          ((∃ p, r.percent_error = some p ∧ |p| > thr) ∨ |r.difference| > 170) := by
    intro validation_df thr r
    rw [export_mem, List.mem_filter, exportFlag_iff]
  refine ⟨hmain, ?_, ?_, ?_⟩
  · intro validation_df thr r hpe
    rw [hmain]
    simp [hpe]
  · rw [hmain]
    exact ⟨List.mem_singleton_self _, Or.inl ⟨15, rfl, by norm_num⟩⟩
  · rw [hmain]
    exact ⟨List.mem_singleton_self _, Or.inr (by norm_num)⟩

/-- C1 counterexample: for a joined azimuth row with calculated 350 and
reference 10, the validation record produced by
`validate_surface_attributes` carries `difference = 340`, not the
shortest-arc distance 20 the claim states. -/
theorem C1_counterexample :
    (validate_surface_attributes
        ⟨["surface_feature_id", "building_feature_id", "classname", "surface_area", "tilt",
          "azimuth"],
         [⟨1, 10, "RoofSurface", [("surface_area", 12), ("tilt", 45), ("azimuth", 350)]⟩]⟩
        [⟨1, "azimuth", 10⟩] [("azimuth", "Dachorientierung")] "RoofSurface").map
      (fun r => r.difference) = [340] ∧ (340 : ℚ) ≠ 20 := by
  have h1 : ((350 : ℚ) = -1) = False := by norm_num
  have h2 : ((10 : ℚ) = -1) = False := by norm_num
  constructor
  · simp [validate_surface_attributes, surfaceRecordsFor, innerJoinSurface, mkSurfaceRecord,
      SurfaceRow.value, getValue, percentError, List.filter, h1, h2]
    norm_num
  · decide

/-- C1 amended: the shortest-arc semantics holds in `compute_errors` (the
error computation applied by the plotting path): for azimuth the reported
difference is `raw = |calculated - reference| mod 360` folded to
`360 - raw` when `raw > 180`, hence always in `[0, 180]`, with
350 vs 10 ↦ 20 and 0 vs 180 ↦ 180; the records produced by
`validate_surface_attributes` instead carry the signed difference
`calculated - reference`. -/
theorem C1_azimuth_shortest_arc :
    (∀ c t : ℚ, compute_errors "azimuth" c t =
      (if qmod |c - t| 360 > 180 then 360 - qmod |c - t| 360 else qmod |c - t| 360, none)) ∧
    (∀ c t : ℚ, 0 ≤ (compute_errors "azimuth" c t).1 ∧ (compute_errors "azimuth" c t).1 ≤ 180) ∧
    ((compute_errors "azimuth" 350 10).1 = 20) ∧
    ((compute_errors "azimuth" 0 180).1 = 180) ∧
    (∀ (tbl : SurfaceTable) (thematic : List ThematicRow) (mapping : List (String × String))
       (surface_type : String) (r : SurfaceRecord),
      r ∈ validate_surface_attributes tbl thematic mapping surface_type →
      r.difference = r.calculated_value - r.thematic_value) := by
  have hfold : ∀ c t : ℚ, compute_errors "azimuth" c t =
      (if qmod |c - t| 360 > 180 then 360 - qmod |c - t| 360 else qmod |c - t| 360, none) := by
    intro c t
    simp [compute_errors]
  refine ⟨hfold, ?_, ?_, ?_, ?_⟩
  · intro c t
    rw [hfold]
    have h0 : (0 : ℚ) < 360 := by norm_num
    have hn := qmod_nonneg |c - t| 360 h0
    have hl := qmod_lt |c - t| 360 h0
    dsimp only
    by_cases h : qmod |c - t| 360 > 180
    · rw [if_pos h]
      constructor <;> [linarith; linarith]
    · rw [if_neg h]
      exact ⟨hn, by linarith⟩
  · simp only [compute_errors, qmod, String.reduceEq, reduceIte, or_self, or_false, false_or]
    norm_num
  · simp only [compute_errors, qmod, String.reduceEq, reduceIte, or_self, or_false, false_or]
    norm_num
  · intro tbl thematic mapping surface_type r h
    rcases mem_validate_surface_shape h with ⟨cc, c, t, rfl⟩
    rfl

/-- Witness for C1: the azimuth record from a concrete surface run has
`difference = calculated_value - thematic_value` (350 - 10 = 340). -/
theorem C1_azimuth_shortest_arc_witness :
    (⟨1, 10, "RoofSurface", "azimuth", 350, 10, 340, some 3400⟩ : SurfaceRecord) ∈
      validate_surface_attributes
        ⟨["surface_feature_id", "building_feature_id", "classname", "azimuth"],
         [⟨1, 10, "RoofSurface", [("azimuth", 350)]⟩]⟩
        [⟨1, "azimuth", 10⟩] [("azimuth", "Dachorientierung")] "RoofSurface" ∧
    (⟨1, 10, "RoofSurface", "azimuth", 350, 10, 340, some 3400⟩ : SurfaceRecord).difference =
      (⟨1, 10, "RoofSurface", "azimuth", 350, 10, 340, some 3400⟩ : SurfaceRecord).calculated_value -
      (⟨1, 10, "RoofSurface", "azimuth", 350, 10, 340, some 3400⟩ : SurfaceRecord).thematic_value := by
  have hmem : (⟨1, 10, "RoofSurface", "azimuth", 350, 10, 340, some 3400⟩ : SurfaceRecord) ∈
      validate_surface_attributes
        ⟨["surface_feature_id", "building_feature_id", "classname", "azimuth"],
         [⟨1, 10, "RoofSurface", [("azimuth", 350)]⟩]⟩
        [⟨1, "azimuth", 10⟩] [("azimuth", "Dachorientierung")] "RoofSurface" := by
    have h1 : ((350 : ℚ) = -1) = False := by norm_num
    have h2 : ((10 : ℚ) = -1) = False := by norm_num
    simp [validate_surface_attributes, surfaceRecordsFor, innerJoinSurface, mkSurfaceRecord,
      SurfaceRow.value, getValue, percentError, List.filter, h1, h2]
    norm_num
  exact ⟨hmem, C1_azimuth_shortest_arc.2.2.2.2 _ _ _ _ _ hmem⟩

/-- C2 counterexample: a tilt record produced by
`validate_surface_attributes` from calculated 45 and reference 30 carries
`percent_error = 50`, not `null` as the claim states. -/
theorem C2_counterexample :
    (validate_surface_attributes
        ⟨["surface_feature_id", "building_feature_id", "classname", "tilt"],
         [⟨1, 10, "RoofSurface", [("tilt", 45)]⟩]⟩
        [⟨1, "tilt", 30⟩] [("tilt", "Dachneigung")] "RoofSurface").map
      (fun r => r.percent_error) = [some 50] ∧ (some (50 : ℚ)) ≠ none := by
  constructor
  · simp [validate_surface_attributes, surfaceRecordsFor, innerJoinSurface, mkSurfaceRecord,
      SurfaceRow.value, getValue, percentError, List.filter]
    norm_num
  · simp

/-- C2 amended: percent error is nulled for tilt and azimuth only in
`compute_errors` (the plotting path); the records produced by
`validate_surface_attributes` instead carry
`percent_error = difference / reference * 100` whenever the reference is
nonzero (NaN only when the reference is exactly 0), for tilt and azimuth
like any other attribute. -/
theorem C2_percent_error_suppression :
    (∀ c t : ℚ, (compute_errors "tilt" c t).2 = none ∧ (compute_errors "azimuth" c t).2 = none) ∧
    (∀ (tbl : SurfaceTable) (thematic : List ThematicRow) (mapping : List (String × String))
       (surface_type : String) (r : SurfaceRecord),
      r ∈ validate_surface_attributes tbl thematic mapping surface_type →
      r.percent_error =
        if r.thematic_value ≠ 0 then some (r.difference / r.thematic_value * 100) else none) := by
  constructor
  · intro c t
    constructor <;> simp [compute_errors]
  · intro tbl thematic mapping surface_type r h
    rcases mem_validate_surface_shape h with ⟨cc, c, t, rfl⟩
    simp only [mkSurfaceRecord, percentError]

/-- Witness for C2: the tilt record from a concrete surface run has a
defined percent error 50 (reference 30 ≠ 0). -/
theorem C2_percent_error_suppression_witness :
    (⟨1, 10, "RoofSurface", "tilt", 45, 30, 15, some 50⟩ : SurfaceRecord).percent_error =
      (if (⟨1, 10, "RoofSurface", "tilt", 45, 30, 15, some 50⟩ : SurfaceRecord).thematic_value ≠ 0
        then some ((⟨1, 10, "RoofSurface", "tilt", 45, 30, 15, some 50⟩ : SurfaceRecord).difference /
          (⟨1, 10, "RoofSurface", "tilt", 45, 30, 15, some 50⟩ : SurfaceRecord).thematic_value * 100)
        else none) :=
  C2_percent_error_suppression.2
    ⟨["surface_feature_id", "building_feature_id", "classname", "tilt"],
     [⟨1, 10, "RoofSurface", [("tilt", 45)]⟩]⟩
    [⟨1, "tilt", 30⟩] [("tilt", "Dachneigung")] "RoofSurface" _ (by
      simp [validate_surface_attributes, surfaceRecordsFor, innerJoinSurface, mkSurfaceRecord,
        SurfaceRow.value, getValue, percentError, List.filter]
      norm_num)

/-- C3 counterexample: for a linear attribute with reference exactly 0,
`validate_building_attributes` produces `percent_error = NaN` (none) — the
ε-stabilized formula of the claim would give a defined value 5·10⁸. -/
theorem C3_counterexample :
    validate_building_attributes
        ⟨["building_feature_id", "footprint_area"], [⟨1, [("footprint_area", 5)]⟩]⟩
        [⟨1, "footprint_area", 0⟩] [("footprint_area", "Flaeche")] =
      .ok [⟨1, "footprint_area", 5, 0, 5, none⟩] ∧
    (none : Option ℚ) ≠ some (5 / ((0 : ℚ) + 1 / 1000000) * 100) := by
  constructor
  · have h1 : buildingRecordsFor ["building_feature_id", "footprint_area"]
        [⟨1, [("footprint_area", 5)]⟩] [⟨1, "footprint_area", 0⟩] "footprint_area" "Flaeche" =
        .ok [⟨1, "footprint_area", 5, 0, 5, none⟩] := by
      simp [buildingRecordsFor, mkBuildingRecord, BuildingRow.value, getValue, percentError,
        List.filter]
    simp [validate_building_attributes, validateBuildingAux, h1]
  · simp

/-- C3 amended: the ε-stabilized percent error
`difference / (reference + 1e-6) * 100` is used by `compute_errors` for the
height and area attributes (defined even at reference 0); the records
produced by `validate_building_attributes` and
`validate_surface_attributes` instead carry
`percent_error = difference / reference * 100`, NaN when the reference is
exactly 0, alongside `difference = calculated - reference`. -/
theorem C3_linear_percent_error :
    (∀ (a : String) (c t : ℚ),
      a = "min_height" ∨ a = "max_height" ∨ a = "height" ∨
        a = "surface_area" ∨ a = "area" ∨ a = "footprint_area" →
      compute_errors a c t = (c - t, some ((c - t) / (t + 1 / 1000000) * 100))) ∧
    (∀ (tbl : BuildingTable) (thematic : List ThematicRow) (mapping : List (String × String))
       (l : List BuildingRecord) (r : BuildingRecord),
      validate_building_attributes tbl thematic mapping = .ok l → r ∈ l →
      r.difference = r.calculated_value - r.thematic_value ∧
      r.percent_error =
        if r.thematic_value ≠ 0 then some (r.difference / r.thematic_value * 100) else none) ∧
    (∀ (tbl : SurfaceTable) (thematic : List ThematicRow) (mapping : List (String × String))
       (surface_type : String) (r : SurfaceRecord),
      r ∈ validate_surface_attributes tbl thematic mapping surface_type →
      r.difference = r.calculated_value - r.thematic_value ∧
      r.percent_error =
        if r.thematic_value ≠ 0 then some (r.difference / r.thematic_value * 100) else none) := by
  refine ⟨?_, ?_, ?_⟩
  · intro a c t h
    rcases h with h | h | h | h | h | h <;> subst h <;> simp [compute_errors]
  · intro tbl thematic mapping l r hok h
    rcases mem_validate_building_shape hok h with ⟨cc, c, t, rfl⟩
    exact ⟨rfl, by simp only [mkBuildingRecord, percentError]⟩
  · intro tbl thematic mapping surface_type r h
    rcases mem_validate_surface_shape h with ⟨cc, c, t, rfl⟩
    exact ⟨rfl, by simp only [mkSurfaceRecord, percentError]⟩

/-- Witness for C3: the ε-formula evaluated for `surface_area`, and the
building-validator formula evaluated on a concrete run with a nonzero
reference (12 vs 10 ↦ percent error exactly 20). -/
theorem C3_linear_percent_error_witness :
    compute_errors "surface_area" 12 10 = (12 - 10, some ((12 - 10) / (10 + 1 / 1000000) * 100)) ∧
    ((⟨1, "footprint_area", 12, 10, 2, some 20⟩ : BuildingRecord).difference =
        (⟨1, "footprint_area", 12, 10, 2, some 20⟩ : BuildingRecord).calculated_value -
          (⟨1, "footprint_area", 12, 10, 2, some 20⟩ : BuildingRecord).thematic_value ∧
      (⟨1, "footprint_area", 12, 10, 2, some 20⟩ : BuildingRecord).percent_error =
        if (⟨1, "footprint_area", 12, 10, 2, some 20⟩ : BuildingRecord).thematic_value ≠ 0
          then some ((⟨1, "footprint_area", 12, 10, 2, some 20⟩ : BuildingRecord).difference /
            (⟨1, "footprint_area", 12, 10, 2, some 20⟩ : BuildingRecord).thematic_value * 100)
          else none) :=
  ⟨C3_linear_percent_error.1 "surface_area" 12 10 (by tauto),
   C3_linear_percent_error.2.1
     ⟨["building_feature_id", "footprint_area"], [⟨1, [("footprint_area", 12)]⟩]⟩
     [⟨1, "footprint_area", 10⟩] [("footprint_area", "Flaeche")]
     [⟨1, "footprint_area", 12, 10, 2, some 20⟩] _
     (by
       have h1 : buildingRecordsFor ["building_feature_id", "footprint_area"]
           [⟨1, [("footprint_area", 12)]⟩] [⟨1, "footprint_area", 10⟩] "footprint_area"
           "Flaeche" = .ok [⟨1, "footprint_area", 12, 10, 2, some 20⟩] := by
         simp [buildingRecordsFor, mkBuildingRecord, BuildingRow.value, getValue, percentError,
           List.filter]
         norm_num
       simp [validate_building_attributes, validateBuildingAux, h1])
     (List.mem_singleton_self _)⟩

/-- Witness for C8: a record with NaN percent error and difference 180 is
exported exactly because of the absolute-difference clause. -/
theorem C8_export_threshold_witness :
    (⟨3, 10, "RoofSurface", "azimuth", 181, 1, 180, none⟩ : SurfaceRecord) ∈
      (export_problematic_surfaces
        [⟨3, 10, "RoofSurface", "azimuth", 181, 1, 180, none⟩] 10).1 ↔
    (⟨3, 10, "RoofSurface", "azimuth", 181, 1, 180, none⟩ : SurfaceRecord) ∈
      [(⟨3, 10, "RoofSurface", "azimuth", 181, 1, 180, none⟩ : SurfaceRecord)] ∧
    |(⟨3, 10, "RoofSurface", "azimuth", 181, 1, 180, none⟩ : SurfaceRecord).difference| > 170 :=
  C8_export_threshold.2.1 [⟨3, 10, "RoofSurface", "azimuth", 181, 1, 180, none⟩] 10
    ⟨3, 10, "RoofSurface", "azimuth", 181, 1, 180, none⟩ rfl

/-- C6 counterexample: `validate_building_attributes` has no guard for a
missing computed column — with thematic rows present for the attribute,
the column selection raises a KeyError and the call fails instead of
skipping the attribute. -/
theorem C6_counterexample :
    validate_building_attributes ⟨["building_feature_id"], [⟨1, []⟩]⟩
        [⟨1, "footprint_area", 5⟩] [("footprint_area", "Flaeche")] =
      .error "KeyError: footprint_area" := by
  have h1 : buildingRecordsFor ["building_feature_id"] [⟨1, []⟩]
      [⟨1, "footprint_area", 5⟩] "footprint_area" "Flaeche" =
      .error "KeyError: footprint_area" := by
    simp [buildingRecordsFor, List.filter]
  simp [validate_building_attributes, validateBuildingAux, h1]

/-- A per-attribute surface chunk for a column missing from the calculated
table is empty. -/
lemma surfaceRecordsFor_col_missing {columns : List String} (filtered : List SurfaceRow)
    (thematic : List ThematicRow) {cc : String} (sl : String) (h : cc ∉ columns) :
    surfaceRecordsFor columns filtered thematic cc sl = [] := by
  unfold surfaceRecordsFor
  by_cases hsl : sl = ""
  · rw [if_pos hsl]
  · rw [if_neg hsl, if_pos h]

/-- C6 amended: `validate_surface_attributes` skips a mapped attribute whose
column is missing from the calculated table — removing such an entry from
the mapping does not change the output, so all other attributes still
produce their records; `validate_building_attributes` has no such guard and
fails with a KeyError when the mapped column is missing and thematic rows
exist for the attribute. -/
theorem C6_missing_column :
    (∀ (tbl : SurfaceTable) (thematic : List ThematicRow)
       (m1 m2 : List (String × String)) (cc sl surface_type : String),
      cc ∉ tbl.columns →
      validate_surface_attributes tbl thematic (m1 ++ (cc, sl) :: m2) surface_type =
        validate_surface_attributes tbl thematic (m1 ++ m2) surface_type) ∧
    (∀ (tbl : BuildingTable) (thematic : List ThematicRow) (cc sl : String),
      tbl.rows ≠ [] →
      thematic.filter (fun t => decide (t.attribute_name = cc)) ≠ [] →
      sl ≠ "" → cc ∉ tbl.columns →
      validate_building_attributes tbl thematic [(cc, sl)] = .error ("KeyError: " ++ cc)) := by
  constructor
  · intro tbl thematic m1 m2 cc sl surface_type h
    unfold validate_surface_attributes
    by_cases h1 : tbl.rows = [] ∨ thematic = []
    · rw [if_pos h1, if_pos h1]
    · rw [if_neg h1, if_neg h1]
      by_cases h2 : tbl.rows.filter (fun r => decide (r.classname = surface_type)) = []
      · rw [if_pos h2, if_pos h2]
      · rw [if_neg h2, if_neg h2]
        rw [List.map_append, List.map_cons, List.map_append]
        rw [List.flatten_append, List.flatten_cons, List.flatten_append]
        rw [surfaceRecordsFor_col_missing _ _ sl h]
        simp
  · intro tbl thematic cc sl hrows hthem hsl hcol
    have hthem2 : thematic ≠ [] := by
      intro h
      subst h
      exact hthem rfl
    unfold validate_building_attributes
    rw [if_neg (by tauto)]
    unfold validateBuildingAux
    have hb : buildingRecordsFor tbl.columns tbl.rows thematic cc sl =
        .error ("KeyError: " ++ cc) := by
      unfold buildingRecordsFor
      rw [if_neg hsl, if_neg hthem, if_pos hcol]
    rw [hb]

/-- Witness for C6: a concrete surface run with a mapped but missing column
equals the run without that mapping entry, and a concrete building run with
a missing column fails with a KeyError. -/
theorem C6_missing_column_witness :
    validate_surface_attributes
        ⟨["surface_feature_id", "building_feature_id", "classname", "surface_area"],
         [⟨1, 10, "RoofSurface", [("surface_area", 12)]⟩]⟩
        [⟨1, "surface_area", 11⟩] [("tilt", "Dachneigung")] "RoofSurface" =
      validate_surface_attributes
        ⟨["surface_feature_id", "building_feature_id", "classname", "surface_area"],
         [⟨1, 10, "RoofSurface", [("surface_area", 12)]⟩]⟩
        [⟨1, "surface_area", 11⟩] ([] ++ []) "RoofSurface" ∧
    validate_building_attributes ⟨["building_feature_id"], [⟨1, []⟩]⟩
        [⟨1, "footprint_area", 5⟩] [("footprint_area", "Flaeche")] =
      .error ("KeyError: " ++ "footprint_area") :=
  ⟨C6_missing_column.1
      ⟨["surface_feature_id", "building_feature_id", "classname", "surface_area"],
       [⟨1, 10, "RoofSurface", [("surface_area", 12)]⟩]⟩
      [⟨1, "surface_area", 11⟩] [] [] "tilt" "Dachneigung" "RoofSurface" (by decide),
   C6_missing_column.2 ⟨["building_feature_id"], [⟨1, []⟩]⟩ [⟨1, "footprint_area", 5⟩]
      "footprint_area" "Flaeche" (by simp) (by simp [List.filter]) (by simp) (by decide)⟩

/-- C9 counterexample: at the surface level, with `min_height` and
`max_height` both mapped to the source label `value`, a reference row with
that label is kept only for the last attribute (`max_height`); no
`min_height` row is produced, contradicting the claimed fan-out at the
surface level. -/
theorem C9_counterexample :
    load_thematic_surface_map [⟨1, "value", 5⟩]
        [("min_height", "value"), ("max_height", "value")] =
      [⟨1, some "max_height", 5⟩] ∧
    (⟨1, some "min_height", (5 : ℚ)⟩ : MappedThematicRow) ∉
      load_thematic_surface_map [⟨1, "value", 5⟩]
        [("min_height", "value"), ("max_height", "value")] := by
  constructor
  · rfl
  · decide

/-- C9 amended: the building-level loader fans every raw reference row out
to all computed attributes sharing its source label; the surface-level
loader instead keeps each raw row once, resolved to the last computed
attribute sharing the label (a reversed-dict lookup), so the other
attributes sharing that label receive no reference rows at the surface
level. -/
theorem C9_reference_fanout :
    (∀ (thematic : List RawPropertyRow) (mapping : List (String × String))
       (row : RawPropertyRow) (cc : String),
      row ∈ thematic → (cc, row.source_label) ∈ mapping →
      (⟨row.feature_id, cc, row.thematic_value⟩ : ThematicRow) ∈
        load_thematic_building_expand thematic mapping) ∧
    (∀ (thematic : List RawPropertyRow) (mapping : List (String × String))
       (row : RawPropertyRow),
      row ∈ thematic →
      (⟨row.feature_id, lastLabelMatch mapping row.source_label, row.thematic_value⟩ :
        MappedThematicRow) ∈ load_thematic_surface_map thematic mapping) := by
  constructor
  · intro thematic mapping row cc hrow hcc
    unfold load_thematic_building_expand
    rw [List.mem_flatMap]
    refine ⟨row, hrow, ?_⟩
    rw [List.mem_map]
    exact ⟨(cc, row.source_label), List.mem_filter.mpr ⟨hcc, by simp⟩, rfl⟩
  · intro thematic mapping row hrow
    unfold load_thematic_surface_map
    rw [List.mem_map]
    exact ⟨row, hrow, rfl⟩

/-- Witness for C9: with `min_height` and `max_height` sharing label
`value`, the building loader hands the reference row to both attributes,
while the surface loader keeps the row only under its last-match
resolution. -/
theorem C9_reference_fanout_witness :
    (⟨1, "min_height", 5⟩ : ThematicRow) ∈
      load_thematic_building_expand [⟨1, "value", 5⟩]
        [("min_height", "value"), ("max_height", "value")] ∧
    (⟨1, "max_height", 5⟩ : ThematicRow) ∈
      load_thematic_building_expand [⟨1, "value", 5⟩]
        [("min_height", "value"), ("max_height", "value")] ∧
    (⟨1, lastLabelMatch [("min_height", "value"), ("max_height", "value")] "value", 5⟩ :
        MappedThematicRow) ∈
      load_thematic_surface_map [⟨1, "value", 5⟩]
        [("min_height", "value"), ("max_height", "value")] :=
  ⟨C9_reference_fanout.1 [⟨1, "value", 5⟩] [("min_height", "value"), ("max_height", "value")]
      ⟨1, "value", 5⟩ "min_height" (List.mem_singleton_self _) (by decide),
   C9_reference_fanout.1 [⟨1, "value", 5⟩] [("min_height", "value"), ("max_height", "value")]
      ⟨1, "value", 5⟩ "max_height" (List.mem_singleton_self _) (by decide),
   C9_reference_fanout.2 [⟨1, "value", 5⟩] [("min_height", "value"), ("max_height", "value")]
      ⟨1, "value", 5⟩ (List.mem_singleton_self _)⟩

/-- In a list whose predicate count is 1, any two members satisfying the
predicate are equal. -/
lemma countP_eq_one_unique {α : Type} {p : α → Bool} {l : List α} (h : l.countP p = 1)
    {a b : α} (ha : a ∈ l) (hb : b ∈ l) (hpa : p a = true) (hpb : p b = true) : a = b := by
  rw [List.countP_eq_length_filter] at h
  rcases List.length_eq_one.mp h with ⟨x, hx⟩
  have h1 : a ∈ l.filter p := List.mem_filter.mpr ⟨ha, hpa⟩
  have h2 : b ∈ l.filter p := List.mem_filter.mpr ⟨hb, hpb⟩
  rw [hx, List.mem_singleton] at h1 h2
  rw [h1, h2]

/-- Filtering by a predicate the unique `p`-member satisfies keeps the
`p`-count at 1. -/
lemma countP_filter_eq_one {α : Type} {p q : α → Bool} {l : List α} (h : l.countP p = 1)
    {a : α} (ha : a ∈ l) (hpa : p a = true) (hqa : q a = true) :
    (l.filter q).countP p = 1 := by
  have hle : (l.filter q).countP p ≤ 1 := by
    rw [List.countP_filter]
    calc l.countP (fun x => p x && q x) ≤ l.countP p :=
          List.countP_mono_left (fun x _ hx => by
            simp only [Bool.and_eq_true] at hx
            exact hx.1)
      _ = 1 := h
  have hpos : 0 < (l.filter q).countP p :=
    List.countP_pos_iff.mpr ⟨a, List.mem_filter.mpr ⟨ha, hqa⟩, hpa⟩
  omega

/-- Summing a per-entry function over a mapping with exactly one entry
keyed `cc` — on which all other entries vanish — gives that entry's
value. -/
lemma map_sum_single_entry (g : String × String → ℕ) :
    ∀ (mapping : List (String × String)) (cc sl : String),
      mapping.countP (fun q => decide (q.1 = cc)) = 1 → (cc, sl) ∈ mapping →
      (∀ q ∈ mapping, q.1 ≠ cc → g q = 0) →
      (mapping.map g).sum = g (cc, sl) := by
  intro mapping
  induction mapping with
  | nil =>
    intro cc sl h _ _
    simp at h
  | cons q rest ih =>
    intro cc sl h hm h0
    by_cases hq : q.1 = cc
    · have hc0 : rest.countP (fun q => decide (q.1 = cc)) = 0 := by
        have h5 : rest.countP (fun q => decide (q.1 = cc)) + 1 = 1 := by
          rw [List.countP_cons] at h
          simpa [hq] using h
        omega
      rcases List.mem_cons.mp hm with heq | hrest
      · have hsum : (rest.map g).sum = 0 := by
          apply List.sum_eq_zero
          intro x hx
          rcases List.mem_map.mp hx with ⟨q1, hq1, hgq1⟩
          by_cases hk : q1.1 = cc
          · exfalso
            have hz := List.countP_eq_zero.mp hc0 q1 hq1
            simp [hk] at hz
          · rw [← hgq1]
            exact h0 q1 (List.mem_cons_of_mem _ hq1) hk
        rw [List.map_cons, List.sum_cons, hsum, ← heq]
        omega
      · exfalso
        have hz := List.countP_eq_zero.mp hc0 (cc, sl) hrest
        simp at hz
    · have hgq : g q = 0 := h0 q (List.mem_cons_self _ _) hq
      have hm2 : (cc, sl) ∈ rest := by
        rcases List.mem_cons.mp hm with heq | hrest
        · exact absurd (by rw [← heq]) hq
        · exact hrest
      have hcount : rest.countP (fun q => decide (q.1 = cc)) = 1 := by
        rw [List.countP_cons] at h
        simpa [hq] using h
      have h02 : ∀ q1 ∈ rest, q1.1 ≠ cc → g q1 = 0 := fun q1 hq1 =>
        h0 q1 (List.mem_cons_of_mem _ hq1)
      rw [List.map_cons, List.sum_cons, hgq, ih cc sl hcount hm2 h02]
      omega

/-- Counting left-key matches in the surface inner join: the count is the
product of the per-side match counts. -/
lemma innerJoinSurface_countP (ys : List ThematicRow) (i : Int) :
    ∀ xs : List SurfaceRow,
      (innerJoinSurface xs ys).countP (fun pr => decide (pr.1.surface_feature_id = i)) =
        xs.countP (fun r => decide (r.surface_feature_id = i)) *
          ys.countP (fun t => decide (t.feature_id = i)) := by
  intro xs
  induction xs with
  | nil => simp [innerJoinSurface]
  | cons c rest ih =>
    unfold innerJoinSurface at ih ⊢
    rw [List.flatMap_cons, List.countP_append, ih, List.countP_cons, List.countP_map]
    have hhead : ((ys.filter (fun t => decide (t.feature_id = c.surface_feature_id))).countP
        ((fun pr : SurfaceRow × ThematicRow => decide (pr.1.surface_feature_id = i)) ∘
          (fun t => (c, t)))) =
        if c.surface_feature_id = i then ys.countP (fun t => decide (t.feature_id = i)) else 0 := by
      by_cases hc : c.surface_feature_id = i
      · rw [if_pos hc]
        have h1 : ((fun pr : SurfaceRow × ThematicRow => decide (pr.1.surface_feature_id = i)) ∘
            (fun t : ThematicRow => (c, t))) = fun _ => true := by
          funext t
          simp [hc]
        rw [h1, List.countP_true, ← hc, ← List.countP_eq_length_filter]
      · rw [if_neg hc]
        have h1 : ((fun pr : SurfaceRow × ThematicRow => decide (pr.1.surface_feature_id = i)) ∘
            (fun t : ThematicRow => (c, t))) = fun _ => false := by
          funext t
          simp [hc]
        rw [h1, List.countP_false]
        rfl
    rw [hhead]
    by_cases hc : c.surface_feature_id = i
    · rw [if_pos hc, if_pos (by simpa using hc)]
      ring
    · rw [if_neg hc, if_neg (by simpa using hc)]
      ring

/-- Membership decomposition for the surface inner join. -/
lemma mem_innerJoinSurface {xs : List SurfaceRow} {ys : List ThematicRow}
    {pr : SurfaceRow × ThematicRow} (h : pr ∈ innerJoinSurface xs ys) :
    pr.1 ∈ xs ∧ pr.2 ∈ ys ∧ pr.2.feature_id = pr.1.surface_feature_id := by
  unfold innerJoinSurface at h
  rcases List.mem_flatMap.mp h with ⟨c, hc, hpr⟩
  rcases List.mem_map.mp hpr with ⟨t, ht, heq⟩
  rcases List.mem_filter.mp ht with ⟨hty, htk⟩
  subst heq
  exact ⟨hc, hty, of_decide_eq_true htk⟩

/-- Counting left-key matches in the building inner join. -/
lemma buildingJoin_countP (ys : List ThematicRow) (i : Int) :
    ∀ xs : List BuildingRow,
      ((xs.flatMap (fun c =>
          (ys.filter (fun t => decide (t.feature_id = c.building_feature_id))).map
            (fun t => (c, t)))).countP
        (fun pr => decide (pr.1.building_feature_id = i))) =
        xs.countP (fun r => decide (r.building_feature_id = i)) *
          ys.countP (fun t => decide (t.feature_id = i)) := by
  intro xs
  induction xs with
  | nil => simp
  | cons c rest ih =>
    rw [List.flatMap_cons, List.countP_append, ih, List.countP_cons, List.countP_map]
    have hhead : ((ys.filter (fun t => decide (t.feature_id = c.building_feature_id))).countP
        ((fun pr : BuildingRow × ThematicRow => decide (pr.1.building_feature_id = i)) ∘
          (fun t => (c, t)))) =
        if c.building_feature_id = i then ys.countP (fun t => decide (t.feature_id = i))
        else 0 := by
      by_cases hc : c.building_feature_id = i
      · rw [if_pos hc]
        have h1 : ((fun pr : BuildingRow × ThematicRow => decide (pr.1.building_feature_id = i)) ∘
            (fun t : ThematicRow => (c, t))) = fun _ => true := by
          funext t
          simp [hc]
        rw [h1, List.countP_true, ← hc, ← List.countP_eq_length_filter]
      · rw [if_neg hc]
        have h1 : ((fun pr : BuildingRow × ThematicRow => decide (pr.1.building_feature_id = i)) ∘
            (fun t : ThematicRow => (c, t))) = fun _ => false := by
          funext t
          simp [hc]
        rw [h1, List.countP_false]
        rfl
    rw [hhead]
    by_cases hc : c.building_feature_id = i
    · rw [if_pos hc, if_pos (by simpa using hc)]
      ring
    · rw [if_neg hc, if_neg (by simpa using hc)]
      ring

/-- Restricting the thematic table to one attribute keeps the unique
(feature, attribute) match count at 1. -/
lemma countP_attrThematic (thematic : List ThematicRow) (cc : String) (i : Int)
    (h : thematic.countP (fun t => decide (t.feature_id = i ∧ t.attribute_name = cc)) = 1) :
    (thematic.filter (fun t => decide (t.attribute_name = cc))).countP
      (fun t => decide (t.feature_id = i)) = 1 := by
  rw [List.countP_filter, ← h]
  apply List.countP_congr
  intro t _
  simp

/-- Count of records for a unique joined (calculated, thematic) pair in one
per-attribute surface chunk: one record, except an azimuth pair hitting the
-1 sentinel, which is excluded. -/
lemma surfaceRecordsFor_countP
    (columns : List String) (filtered : List SurfaceRow) (thematic : List ThematicRow)
    (cc sl : String) (i : Int) (c0 : SurfaceRow) (t0 : ThematicRow)
    (hsl : sl ≠ "") (hcol : cc ∈ columns)
    (hc0f : c0 ∈ filtered) (hc0i : c0.surface_feature_id = i)
    (hfcount : filtered.countP (fun r => decide (r.surface_feature_id = i)) = 1)
    (ht0m : t0 ∈ thematic) (ht0i : t0.feature_id = i) (ht0a : t0.attribute_name = cc)
    (htcount : thematic.countP
      (fun t => decide (t.feature_id = i ∧ t.attribute_name = cc)) = 1) :
    (surfaceRecordsFor columns filtered thematic cc sl).countP
        (fun r => decide (r.surface_feature_id = i)) =
      if cc = "azimuth" ∧ (c0.value cc = -1 ∨ t0.thematic_value = -1) then 0 else 1 := by
  have ht0A : t0 ∈ thematic.filter (fun t => decide (t.attribute_name = cc)) :=
    List.mem_filter.mpr ⟨ht0m, by simp [ht0a]⟩
  have hta : thematic.filter (fun t => decide (t.attribute_name = cc)) ≠ [] := by
    intro hnil
    rw [hnil] at ht0A
    exact absurd ht0A (List.not_mem_nil t0)
  have hAcount : (thematic.filter (fun t => decide (t.attribute_name = cc))).countP
      (fun t => decide (t.feature_id = i)) = 1 := countP_attrThematic thematic cc i htcount
  have hjoin : (innerJoinSurface filtered
      (thematic.filter (fun t => decide (t.attribute_name = cc)))).countP
      (fun pr => decide (pr.1.surface_feature_id = i)) = 1 := by
    rw [innerJoinSurface_countP, hfcount, hAcount]
  have huniq : ∀ pr ∈ innerJoinSurface filtered
      (thematic.filter (fun t => decide (t.attribute_name = cc))),
      pr.1.surface_feature_id = i → pr = (c0, t0) := by
    intro pr hpr hpi
    rcases mem_innerJoinSurface hpr with ⟨h1, h2, h3⟩
    rcases List.mem_filter.mp h2 with ⟨h2m, h2a⟩
    have e1 : pr.1 = c0 :=
      countP_eq_one_unique hfcount h1 hc0f (by simp [hpi]) (by simp [hc0i])
    have e2 : pr.2 = t0 := by
      apply countP_eq_one_unique htcount h2m ht0m
      · simp only [decide_eq_true_eq]
        exact ⟨by rw [h3, hpi], of_decide_eq_true h2a⟩
      · simp only [decide_eq_true_eq]
        exact ⟨ht0i, ht0a⟩
    rw [← e1, ← e2]
  unfold surfaceRecordsFor
  rw [if_neg hsl, if_neg (not_not_intro hcol), if_neg hta, List.countP_map]
  have hcomp : ((fun r : SurfaceRecord => decide (r.surface_feature_id = i)) ∘
      (fun p : SurfaceRow × ThematicRow => mkSurfaceRecord cc p.1 p.2)) =
      fun pr : SurfaceRow × ThematicRow => decide (pr.1.surface_feature_id = i) := rfl
  by_cases hcaz : cc = "azimuth"
  · subst hcaz
    rw [if_pos rfl, hcomp, List.countP_filter]
    by_cases hsent : c0.value "azimuth" = -1 ∨ t0.thematic_value = -1
    · rw [if_pos ⟨rfl, hsent⟩]
      apply List.countP_eq_zero.mpr
      intro pr hpr hboth
      simp only [Bool.and_eq_true, decide_eq_true_eq] at hboth
      have hpr0 : pr = (c0, t0) := huniq pr hpr hboth.1
      rw [hpr0] at hboth
      rcases hsent with h5 | h5
      · exact hboth.2.1 h5
      · exact hboth.2.2 h5
    · rw [if_neg (by tauto)]
      rw [← hjoin]
      apply List.countP_congr
      intro pr hpr
      simp only [Bool.and_eq_true, decide_eq_true_eq]
      constructor
      · intro h5
        exact h5.1
      · intro h5
        have hpr0 : pr = (c0, t0) := huniq pr hpr h5
        refine ⟨h5, ?_⟩
        rw [hpr0]
        push_neg at hsent
        exact ⟨hsent.1, hsent.2⟩
  · rw [if_neg hcaz, if_neg (by tauto), hcomp]
    exact hjoin

/-- With the mapped column present, `buildingRecordsFor` succeeds with the
`buildingChunk` payload. -/
lemma buildingRecordsFor_ok_of_col {columns : List String} {calcRows : List BuildingRow}
    {thematic : List ThematicRow} {cc sl : String} (hcol : cc ∈ columns) :
    buildingRecordsFor columns calcRows thematic cc sl =
      .ok (buildingChunk calcRows thematic cc sl) := by
  unfold buildingRecordsFor buildingChunk
  by_cases h1 : sl = ""
  · rw [if_pos h1, if_pos h1]
  · rw [if_neg h1, if_neg h1]
    by_cases h2 : thematic.filter (fun t => decide (t.attribute_name = cc)) = []
    · rw [if_pos h2, if_pos h2]
    · rw [if_neg h2, if_neg h2, if_neg (not_not_intro hcol)]

/-- With every mapped column present, the building per-attribute loop
succeeds and returns the concatenated chunks. -/
lemma validateBuildingAux_ok (columns : List String) (calcRows : List BuildingRow)
    (thematic : List ThematicRow) :
    ∀ mapping : List (String × String), (∀ q ∈ mapping, q.1 ∈ columns) →
      validateBuildingAux columns calcRows thematic mapping =
        .ok ((mapping.map (fun q => buildingChunk calcRows thematic q.1 q.2)).flatten) := by
  intro mapping
  induction mapping with
  | nil =>
    intro _
    rfl
  | cons q rest ih =>
    intro hcols
    unfold validateBuildingAux
    rw [buildingRecordsFor_ok_of_col (hcols q (List.mem_cons_self _ _)),
      ih (fun q1 hq1 => hcols q1 (List.mem_cons_of_mem _ hq1))]
    rfl

/-- Every record of a building chunk is built by `mkBuildingRecord` for its
attribute. -/
lemma mem_buildingChunk_shape {calcRows : List BuildingRow} {thematic : List ThematicRow}
    {cc sl : String} {r : BuildingRecord} (h : r ∈ buildingChunk calcRows thematic cc sl) :
    ∃ c t, r = mkBuildingRecord cc c t := by
  unfold buildingChunk at h
  split at h
  · exact absurd h (List.not_mem_nil r)
  · split at h
    · exact absurd h (List.not_mem_nil r)
    · rcases List.mem_map.mp h with ⟨p, _, hp⟩
      exact ⟨p.1, p.2, hp.symm⟩

/-- Count of records for a unique joined (calculated, thematic) pair in one
per-attribute building chunk: exactly one record. -/
lemma buildingChunk_countP
    (calcRows : List BuildingRow) (thematic : List ThematicRow)
    (cc sl : String) (i : Int) (c0 : BuildingRow) (t0 : ThematicRow)
    (hsl : sl ≠ "")
    (hc0 : c0 ∈ calcRows) (hc0i : c0.building_feature_id = i)
    (hrcount : calcRows.countP (fun r => decide (r.building_feature_id = i)) = 1)
    (ht0m : t0 ∈ thematic) (ht0i : t0.feature_id = i) (ht0a : t0.attribute_name = cc)
    (htcount : thematic.countP
      (fun t => decide (t.feature_id = i ∧ t.attribute_name = cc)) = 1) :
    (buildingChunk calcRows thematic cc sl).countP
      (fun r => decide (r.building_feature_id = i)) = 1 := by
  have ht0A : t0 ∈ thematic.filter (fun t => decide (t.attribute_name = cc)) :=
    List.mem_filter.mpr ⟨ht0m, by simp [ht0a]⟩
  have hta : thematic.filter (fun t => decide (t.attribute_name = cc)) ≠ [] := by
    intro hnil
    rw [hnil] at ht0A
    exact absurd ht0A (List.not_mem_nil t0)
  unfold buildingChunk
  rw [if_neg hsl, if_neg hta, List.countP_map]
  have hcomp : ((fun r : BuildingRecord => decide (r.building_feature_id = i)) ∘
      (fun p : BuildingRow × ThematicRow => mkBuildingRecord cc p.1 p.2)) =
      fun pr : BuildingRow × ThematicRow => decide (pr.1.building_feature_id = i) := rfl
  rw [hcomp, buildingJoin_countP, hrcount, countP_attrThematic thematic cc i htcount]

/-- C4: join completeness — for a mapped attribute with a nonempty source
label whose column is present, and an entity identity occurring exactly
once on the calculated side (with matching surface subtype) and exactly
once among the reference rows of that attribute, the surface validator
emits exactly one record, except an azimuth pair hitting the -1 sentinel,
which is excluded; the building validator likewise emits exactly one record
per such identity (azimuth is a surface-level attribute and is not mapped
at the building level). -/
theorem C4_join_completeness :
    (∀ (tbl : SurfaceTable) (thematic : List ThematicRow) (mapping : List (String × String))
       (surface_type : String) (i : Int) (cc sl : String) (c0 : SurfaceRow) (t0 : ThematicRow),
      (cc, sl) ∈ mapping →
      mapping.countP (fun q => decide (q.1 = cc)) = 1 →
      sl ≠ "" → cc ∈ tbl.columns →
      c0 ∈ tbl.rows → c0.surface_feature_id = i → c0.classname = surface_type →
      tbl.rows.countP (fun r => decide (r.surface_feature_id = i)) = 1 →
      t0 ∈ thematic → t0.feature_id = i → t0.attribute_name = cc →
      thematic.countP (fun t => decide (t.feature_id = i ∧ t.attribute_name = cc)) = 1 →
      (validate_surface_attributes tbl thematic mapping surface_type).countP
          (fun r => decide (r.surface_feature_id = i ∧ r.attribute_name = cc)) =
        if cc = "azimuth" ∧ (c0.value cc = -1 ∨ t0.thematic_value = -1) then 0 else 1) ∧
    (∀ (tbl : BuildingTable) (thematic : List ThematicRow) (mapping : List (String × String))
       (i : Int) (cc sl : String) (c0 : BuildingRow) (t0 : ThematicRow),
      (∀ q ∈ mapping, q.1 ∈ tbl.columns) →
      (cc, sl) ∈ mapping →
      mapping.countP (fun q => decide (q.1 = cc)) = 1 →
      sl ≠ "" → cc ≠ "azimuth" →
      c0 ∈ tbl.rows → c0.building_feature_id = i →
      tbl.rows.countP (fun r => decide (r.building_feature_id = i)) = 1 →
      t0 ∈ thematic → t0.feature_id = i → t0.attribute_name = cc →
      thematic.countP (fun t => decide (t.feature_id = i ∧ t.attribute_name = cc)) = 1 →
      ∃ l, validate_building_attributes tbl thematic mapping = .ok l ∧
        l.countP (fun r => decide (r.building_feature_id = i ∧ r.attribute_name = cc)) = 1) := by
  constructor
  · intro tbl thematic mapping surface_type i cc sl c0 t0 hmapmem hmapkey hsl hcol hc0 hc0i
      hc0c hrows ht0 ht0i ht0a hthem
    have hc0f : c0 ∈ tbl.rows.filter (fun r => decide (r.classname = surface_type)) :=
      List.mem_filter.mpr ⟨hc0, by simp [hc0c]⟩
    have hfcount : (tbl.rows.filter (fun r => decide (r.classname = surface_type))).countP
        (fun r => decide (r.surface_feature_id = i)) = 1 :=
      countP_filter_eq_one hrows hc0 (by simp [hc0i]) (by simp [hc0c])
    have hrows_ne : tbl.rows ≠ [] := by
      intro h
      rw [h] at hc0
      exact absurd hc0 (List.not_mem_nil c0)
    have hthem_ne : thematic ≠ [] := by
      intro h
      rw [h] at ht0
      exact absurd ht0 (List.not_mem_nil t0)
    have hfil_ne : tbl.rows.filter (fun r => decide (r.classname = surface_type)) ≠ [] := by
      intro h
      rw [h] at hc0f
      exact absurd hc0f (List.not_mem_nil c0)
    unfold validate_surface_attributes
    rw [if_neg (by push_neg; exact ⟨hrows_ne, hthem_ne⟩), if_neg hfil_ne,
      List.countP_flatten, List.map_map]
    have hother : ∀ q ∈ mapping, q.1 ≠ cc →
        (surfaceRecordsFor tbl.columns
            (tbl.rows.filter (fun r => decide (r.classname = surface_type)))
            thematic q.1 q.2).countP
          (fun r => decide (r.surface_feature_id = i ∧ r.attribute_name = cc)) = 0 := by
      intro q hq hkne
      apply List.countP_eq_zero.mpr
      intro r hr
      rcases mem_surfaceRecordsFor_shape hr with ⟨c, t, rfl⟩
      simp [mkSurfaceRecord, hkne]
    have hsum := map_sum_single_entry
      (fun q => (surfaceRecordsFor tbl.columns
          (tbl.rows.filter (fun r => decide (r.classname = surface_type)))
          thematic q.1 q.2).countP
        (fun r => decide (r.surface_feature_id = i ∧ r.attribute_name = cc)))
      mapping cc sl hmapkey hmapmem hother
    rw [show ((List.countP
          (fun r : SurfaceRecord => decide (r.surface_feature_id = i ∧ r.attribute_name = cc))) ∘
        (fun p : String × String => surfaceRecordsFor tbl.columns
          (tbl.rows.filter (fun r => decide (r.classname = surface_type))) thematic p.1 p.2)) =
      (fun q : String × String => (surfaceRecordsFor tbl.columns
          (tbl.rows.filter (fun r => decide (r.classname = surface_type)))
          thematic q.1 q.2).countP
        (fun r => decide (r.surface_feature_id = i ∧ r.attribute_name = cc))) from rfl, hsum]
    dsimp only
    have hP : (surfaceRecordsFor tbl.columns
        (tbl.rows.filter (fun r => decide (r.classname = surface_type)))
        thematic cc sl).countP
        (fun r => decide (r.surface_feature_id = i ∧ r.attribute_name = cc)) =
      (surfaceRecordsFor tbl.columns
        (tbl.rows.filter (fun r => decide (r.classname = surface_type)))
        thematic cc sl).countP (fun r => decide (r.surface_feature_id = i)) := by
      apply List.countP_congr
      intro r hr
      rcases mem_surfaceRecordsFor_shape hr with ⟨c, t, rfl⟩
      simp [mkSurfaceRecord]
    rw [hP]
    exact surfaceRecordsFor_countP tbl.columns
      (tbl.rows.filter (fun r => decide (r.classname = surface_type))) thematic cc sl i c0 t0
      hsl hcol hc0f hc0i hfcount ht0 ht0i ht0a hthem
  · intro tbl thematic mapping i cc sl c0 t0 hcols hmapmem hmapkey hsl _ hc0 hc0i hrows
      ht0 ht0i ht0a hthem
    have hrows_ne : tbl.rows ≠ [] := by
      intro h
      rw [h] at hc0
      exact absurd hc0 (List.not_mem_nil c0)
    have hthem_ne : thematic ≠ [] := by
      intro h
      rw [h] at ht0
      exact absurd ht0 (List.not_mem_nil t0)
    refine ⟨(mapping.map (fun q => buildingChunk tbl.rows thematic q.1 q.2)).flatten, ?_, ?_⟩
    · unfold validate_building_attributes
      rw [if_neg (by push_neg; exact ⟨hrows_ne, hthem_ne⟩)]
      exact validateBuildingAux_ok tbl.columns tbl.rows thematic mapping hcols
    · rw [List.countP_flatten, List.map_map]
      have hother : ∀ q ∈ mapping, q.1 ≠ cc →
          (buildingChunk tbl.rows thematic q.1 q.2).countP
            (fun r => decide (r.building_feature_id = i ∧ r.attribute_name = cc)) = 0 := by
        intro q hq hkne
        apply List.countP_eq_zero.mpr
        intro r hr
        rcases mem_buildingChunk_shape hr with ⟨c, t, rfl⟩
        simp [mkBuildingRecord, hkne]
      have hsum := map_sum_single_entry
        (fun q => (buildingChunk tbl.rows thematic q.1 q.2).countP
          (fun r => decide (r.building_feature_id = i ∧ r.attribute_name = cc)))
        mapping cc sl hmapkey hmapmem hother
      rw [show ((List.countP
            (fun r : BuildingRecord =>
              decide (r.building_feature_id = i ∧ r.attribute_name = cc))) ∘
          (fun q : String × String => buildingChunk tbl.rows thematic q.1 q.2)) =
        (fun q : String × String => (buildingChunk tbl.rows thematic q.1 q.2).countP
          (fun r => decide (r.building_feature_id = i ∧ r.attribute_name = cc))) from rfl, hsum]
      dsimp only
      have hP : (buildingChunk tbl.rows thematic cc sl).countP
          (fun r => decide (r.building_feature_id = i ∧ r.attribute_name = cc)) =
        (buildingChunk tbl.rows thematic cc sl).countP
          (fun r => decide (r.building_feature_id = i)) := by
        apply List.countP_congr
        intro r hr
        rcases mem_buildingChunk_shape hr with ⟨c, t, rfl⟩
        simp [mkBuildingRecord]
      rw [hP]
      exact buildingChunk_countP tbl.rows thematic cc sl i c0 t0 hsl hc0 hc0i hrows
        ht0 ht0i ht0a hthem

/-- Witness for C4: a concrete azimuth surface run (values away from the -1
sentinel) yields its single record, and a concrete building run yields its
single record. -/
theorem C4_join_completeness_witness :
    ((validate_surface_attributes
        ⟨["surface_feature_id", "building_feature_id", "classname", "azimuth"],
         [⟨1, 10, "RoofSurface", [("azimuth", 350)]⟩]⟩
        [⟨1, "azimuth", 10⟩] [("azimuth", "Dachorientierung")] "RoofSurface").countP
        (fun r => decide (r.surface_feature_id = 1 ∧ r.attribute_name = "azimuth")) =
      if "azimuth" = "azimuth" ∧
          ((⟨1, 10, "RoofSurface", [("azimuth", 350)]⟩ : SurfaceRow).value "azimuth" = -1 ∨
            (⟨1, "azimuth", 10⟩ : ThematicRow).thematic_value = -1) then 0 else 1) ∧
    (∃ l, validate_building_attributes
        ⟨["building_feature_id", "footprint_area"], [⟨2, [("footprint_area", 12)]⟩]⟩
        [⟨2, "footprint_area", 10⟩] [("footprint_area", "Flaeche")] = .ok l ∧
      l.countP
        (fun r => decide (r.building_feature_id = 2 ∧ r.attribute_name = "footprint_area")) =
        1) :=
  ⟨C4_join_completeness.1
      ⟨["surface_feature_id", "building_feature_id", "classname", "azimuth"],
       [⟨1, 10, "RoofSurface", [("azimuth", 350)]⟩]⟩
      [⟨1, "azimuth", 10⟩] [("azimuth", "Dachorientierung")] "RoofSurface" 1 "azimuth"
      "Dachorientierung" ⟨1, 10, "RoofSurface", [("azimuth", 350)]⟩ ⟨1, "azimuth", 10⟩
      (by decide) (by decide) (by decide) (by decide) (by decide) (by decide) (by decide)
      (by decide) (by decide) (by decide) (by decide) (by decide),
   C4_join_completeness.2
      ⟨["building_feature_id", "footprint_area"], [⟨2, [("footprint_area", 12)]⟩]⟩
      [⟨2, "footprint_area", 10⟩] [("footprint_area", "Flaeche")] 2 "footprint_area" "Flaeche"
      ⟨2, [("footprint_area", 12)]⟩ ⟨2, "footprint_area", 10⟩
      (by decide) (by decide) (by decide) (by decide) (by decide) (by decide) (by decide)
      (by decide) (by decide) (by decide) (by decide) (by decide)⟩

end City2TABULA
